import Mathlib

/-!
Shallow embedding of the stickbot GPIO wrapper (src/stickbot/gpio.py and
src/stickbot/utils.py).

The Python code wraps a vendor GPIO library (Jetson.GPIO / RPi.GPIO).
Calls into that library are modelled as an explicit trace of `HalEvent`s;
the process-wide numbering mode (`GPIO.getmode`/`GPIO.setmode`) is modelled
as an explicit `Option Mode` threaded through the constructors; Python
`raise ValueError(msg)` is modelled as `Except.error (Err.valueError msg)`.
Numeric duty cycles and frequencies are Python numbers, modelled as `Rat`.
-/

namespace Stickbot

/-- GPIO.HIGH / GPIO.LOW. -/
inductive Value
  | low
  | high
  deriving DecidableEq

/-- GPIO numbering modes: GPIO.BOARD (physical) and the other mode (BCM). -/
inductive Mode
  | board
  | bcm
  deriving DecidableEq

/-- The library constant GPIO.OUT (value 0, as in the repository's tests). -/
def OUT : Nat := 0

/-- The library constant GPIO.IN (value 1, as in the repository's tests). -/
def IN : Nat := 1

/-- One call into the underlying HAL (Jetson.GPIO / RPi.GPIO). -/
inductive HalEvent
  | setmode (m : Mode)
  | setup (pin : Nat) (dir : Nat) (initial : Option Value)
  | output (pin : Nat) (v : Value)
  | pwmInit (pin : Nat) (freq : Rat)
  | pwmStart (duty : Rat)
  | pwmStop
  | pwmChangeFrequency (freq : Rat)
  | pwmChangeDutyCycle (duty : Rat)
  | cleanupPin (pin : Nat)
  deriving DecidableEq

/-- True exactly on `HalEvent.setup` events (a HAL pin-configuration call). -/
def HalEvent.isSetup : HalEvent → Bool
  | HalEvent.setup _ _ _ => true
  | _ => false

/-- True exactly on `HalEvent.output` events (driving a digital line). -/
def HalEvent.isOutput : HalEvent → Bool
  | HalEvent.output _ _ => true
  | _ => false

instance {e a : Type} [DecidableEq e] [DecidableEq a] : DecidableEq (Except e a) := fun x y =>
  match x, y with
  | Except.ok u, Except.ok v => decidable_of_iff (u = v) (by simp)
  | Except.error u, Except.error v => decidable_of_iff (u = v) (by simp)
  | Except.ok _, Except.error _ => isFalse (by simp)
  | Except.error _, Except.ok _ => isFalse (by simp)

/-- Python `raise ValueError(msg)`. -/
inductive Err
  | valueError (msg : String)
  deriving DecidableEq

/-- State of a `DigitalPin` instance: `pin_number`, `direction`,
`self._current_value` (None modelled as `none`). -/
structure DigitalPin where
  pin_number : Nat
  direction : Nat
  current_value : Option Value
  deriving DecidableEq

/-- `DigitalPin.__init__(pin_number, direction, initial_value=None)`.
Returns the resulting process-wide mode, the HAL calls made, and either the
constructed object or the raised error (mode mutation persists even when the
constructor raises, as in the source). -/
def DigitalPin.init (mode : Option Mode) (pin_number : Nat) (direction : Nat)
    (initial_value : Option Value) :
    Option Mode × List HalEvent × Except Err DigitalPin :=
  match (match mode with
    | none => some (some Mode.board, [HalEvent.setmode Mode.board])
    | some m => if m = Mode.board then some (mode, ([] : List HalEvent)) else none) with
  | none =>
      (mode, [], Except.error (Err.valueError "GPIO mode already set to different mode"))
  | some (mode1, evs) =>
      if direction = OUT then
        (mode1, evs ++ [HalEvent.setup pin_number OUT initial_value],
         Except.ok ⟨pin_number, direction, some (initial_value.getD Value.low)⟩)
      else if direction = IN then
        (mode1, evs ++ [HalEvent.setup pin_number IN none],
         Except.ok ⟨pin_number, direction, none⟩)
      else
        (mode1, evs, Except.error (Err.valueError "Direction must be GPIO.IN or GPIO.OUT"))

/-- `DigitalPin.set_high`. -/
def DigitalPin.set_high (p : DigitalPin) : Except Err (DigitalPin × List HalEvent) :=
  if p.direction ≠ OUT then
    Except.error (Err.valueError "Pin is not configured as output")
  else
    Except.ok ({ p with current_value := some Value.high },
      [HalEvent.output p.pin_number Value.high])

/-- `DigitalPin.set_low`. -/
def DigitalPin.set_low (p : DigitalPin) : Except Err (DigitalPin × List HalEvent) :=
  if p.direction ≠ OUT then
    Except.error (Err.valueError "Pin is not configured as output")
  else
    Except.ok ({ p with current_value := some Value.low },
      [HalEvent.output p.pin_number Value.low])

/-- `DigitalPin.toggle`. -/
def DigitalPin.toggle (p : DigitalPin) : Except Err (DigitalPin × List HalEvent) :=
  if p.direction ≠ OUT then
    Except.error (Err.valueError "Pin is not configured as output")
  else if p.current_value = some Value.high then
    p.set_low
  else
    p.set_high

/-- `DigitalPin.cleanup`: `GPIO.cleanup(self.pin_number)`; the object itself
is not modified (there is no released flag in the source). -/
def DigitalPin.cleanup (p : DigitalPin) : DigitalPin × List HalEvent :=
  (p, [HalEvent.cleanupPin p.pin_number])

/-- State of a `PWMPin` instance: `pin_number`, `self.frequency`,
`self._duty_cycle`, `self._started`. -/
structure PWMPin where
  pin_number : Nat
  frequency : Rat
  duty_cycle : Rat
  started : Bool
  deriving DecidableEq

/-- `PWMPin.__init__(pin_number, frequency=1000)`. -/
def PWMPin.init (mode : Option Mode) (pin_number : Nat) (frequency : Rat) :
    Option Mode × List HalEvent × Except Err PWMPin :=
  match (match mode with
    | none => some (some Mode.board, [HalEvent.setmode Mode.board])
    | some m => if m = Mode.board then some (mode, ([] : List HalEvent)) else none) with
  | none =>
      (mode, [], Except.error (Err.valueError "GPIO mode already set to different mode"))
  | some (mode1, evs) =>
      (mode1, evs ++ [HalEvent.setup pin_number OUT (some Value.low),
                      HalEvent.pwmInit pin_number frequency],
       Except.ok ⟨pin_number, frequency, 0, false⟩)

/-- `PWMPin.start(duty_cycle=0)`. -/
def PWMPin.start (p : PWMPin) (duty_cycle : Rat) : Except Err (PWMPin × List HalEvent) :=
  if ¬ (0 ≤ duty_cycle ∧ duty_cycle ≤ 100) then
    Except.error (Err.valueError "Duty cycle must be between 0 and 100")
  else
    Except.ok ({ p with duty_cycle := duty_cycle, started := true },
      [HalEvent.pwmStart duty_cycle])

/-- `PWMPin.stop`. -/
def PWMPin.stop (p : PWMPin) : PWMPin × List HalEvent :=
  if p.started then ({ p with started := false }, [HalEvent.pwmStop]) else (p, [])

/-- `PWMPin.change_frequency(frequency)`: stores the frequency, then pushes
it to the HAL only when started; there is no validation in the source. -/
def PWMPin.change_frequency (p : PWMPin) (frequency : Rat) : PWMPin × List HalEvent :=
  let p1 := { p with frequency := frequency }
  if p1.started then (p1, [HalEvent.pwmChangeFrequency frequency]) else (p1, [])

/-- `PWMPin.change_duty_cycle(duty_cycle)`. -/
def PWMPin.change_duty_cycle (p : PWMPin) (duty_cycle : Rat) :
    Except Err (PWMPin × List HalEvent) :=
  if ¬ (0 ≤ duty_cycle ∧ duty_cycle ≤ 100) then
    Except.error (Err.valueError "Duty cycle must be between 0 and 100")
  else
    Except.ok ({ p with duty_cycle := duty_cycle },
      if p.started then [HalEvent.pwmChangeDutyCycle duty_cycle] else [])

/-- Keys of the `notes` mapping in `get_available_pins`: pin numbers, plus
the string key `'unknown'` used by the fallback entry. -/
inductive NoteKey
  | pin (n : Nat)
  | unknownModel
  deriving DecidableEq

/-- The dictionary returned by `get_available_pins`. -/
structure PinInfo where
  digital : List Nat
  pwm_capable : List Nat
  notes : List (NoteKey × String)
  deriving DecidableEq

/-- The digital pin list shared by every entry of `board_pins` and by the
fallback in `get_available_pins`. -/
def standardDigital : List Nat :=
  [7, 11, 12, 13, 15, 16, 18, 19, 21, 22, 23, 24, 26, 29, 31, 32, 33, 35, 36, 37, 38, 40]

/-- `utils.get_available_pins()`, with the process-global `GPIO.model`
made an explicit argument. -/
def get_available_pins (model : String) : PinInfo :=
  if model = "JETSON_ORIN_NANO" then
    ⟨standardDigital, [15, 33],
      [(NoteKey.pin 15, "PWM capable - may need pinmux configuration"),
       (NoteKey.pin 33, "PWM capable - may need pinmux configuration"),
       (NoteKey.pin 36, "May be input-only depending on base board")]⟩
  else if model = "JETSON_ORIN_NX" then
    ⟨standardDigital, [15, 33],
      [(NoteKey.pin 15, "PWM capable - may need pinmux configuration"),
       (NoteKey.pin 33, "PWM capable - may need pinmux configuration")]⟩
  else if model = "JETSON_ORIN" then
    ⟨standardDigital, [15, 18],
      [(NoteKey.pin 15, "PWM capable - may need pinmux configuration"),
       (NoteKey.pin 18, "PWM capable - may need pinmux configuration")]⟩
  else
    ⟨standardDigital, [],
      [(NoteKey.unknownModel, "Unknown board model: " ++ model)]⟩

/-- C1: for every PWMPin state and every duty cycle outside [0,100], both
`start` and `change_duty_cycle` raise the ValueError used by the source for
out-of-range duty cycles. The raise happens before any assignment, so the
returned value is only the error: the `started` flag and stored `duty_cycle`
of the handle are untouched (no partial mutation on the error path). -/
theorem pwm_duty_out_of_range_rejected (p : PWMPin) (d : Rat)
    (h : ¬ (0 ≤ d ∧ d ≤ 100)) :
    p.start d = Except.error (Err.valueError "Duty cycle must be between 0 and 100") ∧
    p.change_duty_cycle d = Except.error (Err.valueError "Duty cycle must be between 0 and 100") := by
  constructor <;> simp [PWMPin.start, PWMPin.change_duty_cycle, h]

theorem pwm_duty_out_of_range_rejected_witness :
    ¬ ((0:Rat) ≤ 150 ∧ (150:Rat) ≤ 100) ∧
    ((⟨33, 1000, 50, true⟩ : PWMPin).start 150 =
       Except.error (Err.valueError "Duty cycle must be between 0 and 100") ∧
     (⟨33, 1000, 50, true⟩ : PWMPin).change_duty_cycle 150 =
       Except.error (Err.valueError "Duty cycle must be between 0 and 100")) :=
  ⟨by decide, pwm_duty_out_of_range_rejected ⟨33, 1000, 50, true⟩ 150 (by decide)⟩

/-- C2: the process-wide numbering mode is set-once. Both constructors set
the mode to BOARD when it is unset, leave it unchanged otherwise (the mode
after any construction is `some (mode.getD Mode.board)`), fail with the
mode-conflict ValueError when the mode is already set to the other mode
(BCM), and succeed when the mode is already BOARD (idempotent for the same
mode). Hence the mode never changes after its first assignment. -/
theorem numbering_mode_set_once (mode : Option Mode) (pin dir : Nat) (iv : Option Value) (freq : Rat) :
    (DigitalPin.init mode pin dir iv).1 = some (mode.getD Mode.board) ∧
    (PWMPin.init mode pin freq).1 = some (mode.getD Mode.board) ∧
    (DigitalPin.init (some Mode.bcm) pin dir iv).2.2 =
      Except.error (Err.valueError "GPIO mode already set to different mode") ∧
    (PWMPin.init (some Mode.bcm) pin freq).2.2 =
      Except.error (Err.valueError "GPIO mode already set to different mode") ∧
    (PWMPin.init (some Mode.board) pin freq).2.2 = Except.ok ⟨pin, freq, 0, false⟩ ∧
    (DigitalPin.init (some Mode.board) pin OUT iv).2.2 =
      Except.ok ⟨pin, OUT, some (iv.getD Value.low)⟩ ∧
    (DigitalPin.init (some Mode.board) pin IN iv).2.2 = Except.ok ⟨pin, IN, none⟩ := by
  refine ⟨?_, ?_, ?_, ?_, ?_, ?_, ?_⟩
  · rcases mode with _ | m
    · by_cases hO : dir = 0 <;> by_cases hI : dir = 1 <;>
        first | omega | simp [DigitalPin.init, OUT, IN, hO, hI]
    · cases m <;> by_cases hO : dir = 0 <;> by_cases hI : dir = 1 <;>
        first | omega | simp [DigitalPin.init, OUT, IN, hO, hI]
  · rcases mode with _ | m
    · simp [PWMPin.init]
    · cases m <;> simp [PWMPin.init]
  · by_cases hO : dir = 0 <;> by_cases hI : dir = 1 <;>
      first | omega | simp [DigitalPin.init, OUT, IN, hO, hI]
  · simp [PWMPin.init]
  · simp [PWMPin.init]
  · simp [DigitalPin.init, Option.getD]
  · simp [DigitalPin.init, IN, OUT]

/-- C3 counterexample: `change_frequency` does not fail for a non-positive
frequency. At frequency -5 on a running PWMPin it succeeds, stores -5 as the
frequency, and even pushes -5 to the HAL channel. -/
theorem change_frequency_no_validation_counterexample :
    (⟨33, 1000, 50, true⟩ : PWMPin).change_frequency (-5) =
      (⟨33, -5, 50, true⟩, [HalEvent.pwmChangeFrequency (-5)]) := by decide

/-- C3 (amended): `change_frequency` performs no range validation; for every
frequency (including values ≤ 0) it updates the stored frequency
unconditionally and pushes the new frequency to the HAL channel exactly when
`started = true`; the trace never contains a stop or start event (no
stop/start cycle). -/
theorem change_frequency_stores_and_pushes (p : PWMPin) (f : Rat) :
    p.change_frequency f =
      ({ p with frequency := f }, if p.started then [HalEvent.pwmChangeFrequency f] else []) ∧
    ∀ e ∈ (p.change_frequency f).2, e = HalEvent.pwmChangeFrequency f := by
  cases p with
  | mk pn fr d s => cases s <;> simp [PWMPin.change_frequency]

/-- C4: for Output-direction handles, a single `toggle` writes the inverse
of the current cached value, treating an unset cached value as Low (the
written value is Low exactly when the cached value is High); and for an
Output handle whose cached value is set (as holds for every handle produced
by the constructor with direction OUT), applying `toggle` twice restores the
cached value to its pre-call value. -/
theorem toggle_self_inverse (p q : DigitalPin) (v : Value)
    (hp : p.direction = OUT) (hv : p.current_value = some v)
    (hq : q.direction = OUT) :
    q.toggle = Except.ok
      ({ q with
          current_value :=
            some (if q.current_value = some Value.high then Value.low else Value.high) },
       [HalEvent.output q.pin_number
          (if q.current_value = some Value.high then Value.low else Value.high)]) ∧
    p.toggle = Except.ok
      ({ p with
          current_value := some (if v = Value.high then Value.low else Value.high) },
       [HalEvent.output p.pin_number (if v = Value.high then Value.low else Value.high)]) ∧
    DigitalPin.toggle
        { p with
            current_value := some (if v = Value.high then Value.low else Value.high) } =
      Except.ok ({ p with current_value := some v }, [HalEvent.output p.pin_number v]) ∧
    ({ p with current_value := some v } : DigitalPin) = p := by
  refine ⟨?_, ?_, ?_, ?_⟩
  · rcases hqv : q.current_value with _ | w
    · simp [DigitalPin.toggle, DigitalPin.set_high, hq, hqv]
    · cases w <;> simp [DigitalPin.toggle, DigitalPin.set_high, DigitalPin.set_low, hq, hqv]
  · cases v <;> simp [DigitalPin.toggle, DigitalPin.set_high, DigitalPin.set_low, hp, hv]
  · cases v <;> simp [DigitalPin.toggle, DigitalPin.set_high, DigitalPin.set_low, hp, hv]
  · cases p with
    | mk pn dir cv =>
      simp only [DigitalPin.current_value] at hv
      simp [hv]

theorem toggle_self_inverse_witness :
    ((⟨18, OUT, some Value.low⟩ : DigitalPin).direction = OUT ∧
     (⟨18, OUT, some Value.low⟩ : DigitalPin).current_value = some Value.low ∧
     (⟨16, OUT, none⟩ : DigitalPin).direction = OUT) ∧
    ((⟨16, OUT, none⟩ : DigitalPin).toggle = Except.ok
      (⟨16, OUT, some Value.high⟩, [HalEvent.output 16 Value.high]) ∧
     (⟨18, OUT, some Value.low⟩ : DigitalPin).toggle = Except.ok
      (⟨18, OUT, some Value.high⟩, [HalEvent.output 18 Value.high]) ∧
     (⟨18, OUT, some Value.high⟩ : DigitalPin).toggle = Except.ok
      (⟨18, OUT, some Value.low⟩, [HalEvent.output 18 Value.low]) ∧
     (⟨18, OUT, some Value.low⟩ : DigitalPin) = ⟨18, OUT, some Value.low⟩) :=
  ⟨⟨rfl, rfl, rfl⟩,
   toggle_self_inverse ⟨18, OUT, some Value.low⟩ ⟨16, OUT, none⟩ Value.low rfl rfl rfl⟩

/-- C5: on a handle whose direction is not Output, `set_high`, `set_low`
and `toggle` all fail with the direction ValueError, returning only the
error (no HAL output event, no update of the cached value); on an Output
handle, `set_high`/`set_low` drive the line via a HAL output event and set
the cached value to the written value. -/
theorem direction_enforced (p q : DigitalPin)
    (hp : p.direction ≠ OUT) (hq : q.direction = OUT) :
    (p.set_high = Except.error (Err.valueError "Pin is not configured as output") ∧
     p.set_low = Except.error (Err.valueError "Pin is not configured as output") ∧
     p.toggle = Except.error (Err.valueError "Pin is not configured as output")) ∧
    (q.set_high = Except.ok ({ q with current_value := some Value.high },
       [HalEvent.output q.pin_number Value.high]) ∧
     q.set_low = Except.ok ({ q with current_value := some Value.low },
       [HalEvent.output q.pin_number Value.low])) := by
  refine ⟨⟨?_, ?_, ?_⟩, ?_, ?_⟩ <;>
    simp [DigitalPin.set_high, DigitalPin.set_low, DigitalPin.toggle, hp, hq]

theorem direction_enforced_witness :
    ((⟨16, IN, none⟩ : DigitalPin).direction ≠ OUT ∧
     (⟨18, OUT, some Value.low⟩ : DigitalPin).direction = OUT) ∧
    (((⟨16, IN, none⟩ : DigitalPin).set_high =
        Except.error (Err.valueError "Pin is not configured as output") ∧
      (⟨16, IN, none⟩ : DigitalPin).set_low =
        Except.error (Err.valueError "Pin is not configured as output") ∧
      (⟨16, IN, none⟩ : DigitalPin).toggle =
        Except.error (Err.valueError "Pin is not configured as output")) ∧
     ((⟨18, OUT, some Value.low⟩ : DigitalPin).set_high = Except.ok
        (⟨18, OUT, some Value.high⟩, [HalEvent.output 18 Value.high]) ∧
      (⟨18, OUT, some Value.low⟩ : DigitalPin).set_low = Except.ok
        (⟨18, OUT, some Value.low⟩, [HalEvent.output 18 Value.low]))) :=
  ⟨⟨by decide, rfl⟩, direction_enforced ⟨16, IN, none⟩ ⟨18, OUT, some Value.low⟩ (by decide) rfl⟩

/-- C6 counterexample: constructing a DigitalPin as Output with
`initial_value` unspecified caches Low, but the HAL setup call carries
`initial = none` (the None passed by the source), the trace contains no
output event, and in particular no setup event with initial Low: the wrapper
does not itself drive the line to Low. -/
theorem acquire_output_default_counterexample :
    DigitalPin.init none 7 OUT none =
      (some Mode.board,
       [HalEvent.setmode Mode.board, HalEvent.setup 7 OUT none],
       Except.ok ⟨7, OUT, some Value.low⟩) ∧
    (DigitalPin.init none 7 OUT none).2.1.all (fun e => !e.isOutput) = true ∧
    ((HalEvent.setup 7 OUT (some Value.low)) ∈ (DigitalPin.init none 7 OUT none).2.1 → False) := by
  decide

/-- C6 (amended): acquiring as Output with `initial_value` unspecified
defaults the cached `current_value` to Low, while the HAL setup call is made
with no initial level (`initial = none`, passed through from the source) and
the trace contains no output event, so the line is driven at acquisition
only if the HAL driver itself acts on a missing initial level; acquiring as
Input ignores `initial_value` and leaves the cached value unset. -/
theorem acquire_defaults (mode : Option Mode) (pin : Nat) (iv : Option Value)
    (h : mode = none ∨ mode = some Mode.board) :
    DigitalPin.init mode pin OUT none =
      (some Mode.board,
       (if mode = none then [HalEvent.setmode Mode.board] else []) ++
         [HalEvent.setup pin OUT none],
       Except.ok ⟨pin, OUT, some Value.low⟩) ∧
    DigitalPin.init mode pin IN iv =
      (some Mode.board,
       (if mode = none then [HalEvent.setmode Mode.board] else []) ++
         [HalEvent.setup pin IN none],
       Except.ok ⟨pin, IN, none⟩) ∧
    (DigitalPin.init mode pin OUT none).2.1.all (fun e => !e.isOutput) = true ∧
    DigitalPin.init mode pin IN iv = DigitalPin.init mode pin IN none := by
  rcases h with h | h <;> subst h <;>
    refine ⟨?_, ?_, ?_, ?_⟩ <;>
    simp [DigitalPin.init, OUT, IN, HalEvent.isOutput]

theorem acquire_defaults_witness :
    ((none : Option Mode) = none ∨ (none : Option Mode) = some Mode.board) ∧
    (DigitalPin.init none 18 OUT none =
      (some Mode.board,
       (if (none : Option Mode) = none then [HalEvent.setmode Mode.board] else []) ++
         [HalEvent.setup 18 OUT none],
       Except.ok ⟨18, OUT, some Value.low⟩) ∧
     DigitalPin.init none 16 IN (some Value.high) =
      (some Mode.board,
       (if (none : Option Mode) = none then [HalEvent.setmode Mode.board] else []) ++
         [HalEvent.setup 16 IN none],
       Except.ok ⟨16, IN, none⟩) ∧
     (DigitalPin.init none 18 OUT none).2.1.all (fun e => !e.isOutput) = true ∧
     DigitalPin.init none 16 IN (some Value.high) = DigitalPin.init none 16 IN none) :=
  ⟨Or.inl rfl, by
    have h1 := acquire_defaults none 18 (some Value.high) (Or.inl rfl)
    have h2 := acquire_defaults none 16 (some Value.high) (Or.inl rfl)
    exact ⟨h1.1, h2.2.1, h1.2.2.1, h2.2.2.2⟩⟩

/-- C7 counterexample: after `cleanup` on an Output handle for pin 15, a
subsequent `set_high` does not fail with any released-handle error: it
succeeds and issues the HAL output call. -/
theorem released_handle_counterexample :
    ((⟨15, OUT, some Value.low⟩ : DigitalPin).cleanup).1.set_high =
      Except.ok (⟨15, OUT, some Value.high⟩, [HalEvent.output 15 Value.high]) := by decide

/-- C7 (amended): `cleanup` only issues the HAL cleanup call for the pin
and does not invalidate the handle: there is no released flag and no
released-handle error in the source, and a subsequent `set_high` on an
Output handle passes the direction check and issues the HAL output call
unconditionally (any failure would come from the HAL itself). -/
theorem cleanup_does_not_invalidate (p : DigitalPin) (h : p.direction = OUT) :
    p.cleanup = (p, [HalEvent.cleanupPin p.pin_number]) ∧
    (p.cleanup).1.set_high = Except.ok ({ p with current_value := some Value.high },
      [HalEvent.output p.pin_number Value.high]) := by
  exact ⟨rfl, by simp [DigitalPin.cleanup, DigitalPin.set_high, h]⟩

theorem cleanup_does_not_invalidate_witness :
    (⟨15, OUT, some Value.low⟩ : DigitalPin).direction = OUT ∧
    ((⟨15, OUT, some Value.low⟩ : DigitalPin).cleanup =
      (⟨15, OUT, some Value.low⟩, [HalEvent.cleanupPin 15]) ∧
     ((⟨15, OUT, some Value.low⟩ : DigitalPin).cleanup).1.set_high =
      Except.ok (⟨15, OUT, some Value.high⟩, [HalEvent.output 15 Value.high])) :=
  ⟨rfl, cleanup_does_not_invalidate ⟨15, OUT, some Value.low⟩ rfl⟩

/-- C8: `stop` is idempotent. When `started = false` it raises nothing,
performs no HAL call and leaves the state unchanged; when `started = true`
it stops the HAL channel and sets `started := false`; after any `stop` the
flag is false and a second `stop` is a no-op, so stop;stop has the same
effect as stop. -/
theorem stop_idempotent (p : PWMPin) :
    p.stop = (if p.started then ({ p with started := false }, [HalEvent.pwmStop])
              else (p, [])) ∧
    (p.stop).1.started = false ∧
    (p.stop).1.stop = ((p.stop).1, []) := by
  cases p with
  | mk pn f d s => cases s <;> simp [PWMPin.stop]

/-- C9: the board capability lookup is total (it is a total function of
the model string): every model gets the same non-empty digital pin list;
any model other than the three known Orin models gets the fallback with an
empty PWM-capable list and the unknown-model note; the three known Orin
models get their fixed tables. -/
theorem capabilities_total (model : String)
    (h1 : model ≠ "JETSON_ORIN_NANO") (h2 : model ≠ "JETSON_ORIN_NX")
    (h3 : model ≠ "JETSON_ORIN") :
    (get_available_pins model).digital = standardDigital ∧
    standardDigital ≠ [] ∧
    (get_available_pins model).pwm_capable = [] ∧
    (get_available_pins model).notes =
      [(NoteKey.unknownModel, "Unknown board model: " ++ model)] ∧
    get_available_pins "JETSON_ORIN_NANO" =
      ⟨standardDigital, [15, 33],
        [(NoteKey.pin 15, "PWM capable - may need pinmux configuration"),
         (NoteKey.pin 33, "PWM capable - may need pinmux configuration"),
         (NoteKey.pin 36, "May be input-only depending on base board")]⟩ ∧
    get_available_pins "JETSON_ORIN_NX" =
      ⟨standardDigital, [15, 33],
        [(NoteKey.pin 15, "PWM capable - may need pinmux configuration"),
         (NoteKey.pin 33, "PWM capable - may need pinmux configuration")]⟩ ∧
    get_available_pins "JETSON_ORIN" =
      ⟨standardDigital, [15, 18],
        [(NoteKey.pin 15, "PWM capable - may need pinmux configuration"),
         (NoteKey.pin 18, "PWM capable - may need pinmux configuration")]⟩ := by
  refine ⟨?_, by decide, ?_, ?_, by decide, by decide, by decide⟩ <;>
    simp [get_available_pins, h1, h2, h3]

theorem capabilities_total_witness :
    ("FOO_BOARD" ≠ "JETSON_ORIN_NANO" ∧ "FOO_BOARD" ≠ "JETSON_ORIN_NX" ∧
     "FOO_BOARD" ≠ "JETSON_ORIN") ∧
    ((get_available_pins "FOO_BOARD").digital = standardDigital ∧
     standardDigital ≠ [] ∧
     (get_available_pins "FOO_BOARD").pwm_capable = [] ∧
     (get_available_pins "FOO_BOARD").notes =
       [(NoteKey.unknownModel, "Unknown board model: " ++ "FOO_BOARD")]) :=
  ⟨⟨by decide, by decide, by decide⟩, by
    have h := capabilities_total "FOO_BOARD" (by decide) (by decide) (by decide)
    exact ⟨h.1, h.2.1, h.2.2.1, h.2.2.2.1⟩⟩

/-- C10: constructing a DigitalPin with a direction that is neither IN nor
OUT fails with the direction ValueError; the trace contains no HAL setup
call and no output call (the invalid-direction branch is taken before any
line configuration), and no object is produced, so `current_value` is never
assigned. -/
theorem invalid_direction_rejected (mode : Option Mode) (pin dir : Nat) (iv : Option Value)
    (hm : mode = none ∨ mode = some Mode.board)
    (h1 : dir ≠ OUT) (h2 : dir ≠ IN) :
    (DigitalPin.init mode pin dir iv).2.2 =
      Except.error (Err.valueError "Direction must be GPIO.IN or GPIO.OUT") ∧
    (DigitalPin.init mode pin dir iv).2.1.all (fun e => !e.isSetup) = true ∧
    (DigitalPin.init mode pin dir iv).2.1.all (fun e => !e.isOutput) = true := by
  rw [OUT] at h1; rw [IN] at h2
  rcases hm with h | h <;> subst h <;>
    refine ⟨?_, ?_, ?_⟩ <;>
    simp [DigitalPin.init, OUT, IN, HalEvent.isSetup, HalEvent.isOutput, h1, h2]

theorem invalid_direction_rejected_witness :
    (((none : Option Mode) = none ∨ (none : Option Mode) = some Mode.board) ∧
     (2 : Nat) ≠ OUT ∧ (2 : Nat) ≠ IN) ∧
    ((DigitalPin.init none 18 2 none).2.2 =
      Except.error (Err.valueError "Direction must be GPIO.IN or GPIO.OUT") ∧
     (DigitalPin.init none 18 2 none).2.1.all (fun e => !e.isSetup) = true ∧
     (DigitalPin.init none 18 2 none).2.1.all (fun e => !e.isOutput) = true) :=
  ⟨⟨Or.inl rfl, by decide, by decide⟩,
   invalid_direction_rejected none 18 2 none (Or.inl rfl) (by decide) (by decide)⟩

end Stickbot
